import Mathlib

/-
Verification of the Sentinel-Unturned Public-Integrations delivery and
routing core, shallowly embedded from the TypeScript sources.

The network is abstracted by an oracle `Nat → AttemptOutcome` giving, for
each 1-indexed delivery attempt, the outcome the runtime would observe for
the `fetch` call of that attempt.  Sleeps are not performed; instead each
delivery function also returns the ordered list of sleep durations (in
milliseconds, as rationals, since `baseDelayMs * Math.pow(2, attempt - 2)`
is fractional for attempt 1) that the code would have awaited.
-/

namespace Sentinel

/-- Outcome of one `fetch` attempt, as observed by the `try`/`catch` in the
delivery loops: an HTTP response with a status and a body text (`none` when
`response.text()` rejects), a thrown `AbortError` (the abort controller
fired), some other thrown `Error` carrying a message, or a thrown
non-`Error` value. -/
inductive AttemptOutcome where
  | response (status : Nat) (bodyText : Option String)
  | abortError (msg : String)
  | errorThrown (msg : String)
  | nonErrorThrown
deriving DecidableEq, Repr

/-- `response.ok` of the fetch API: status in the inclusive range 200-299. -/
def responseOk (status : Nat) : Bool :=
  decide (200 ≤ status) && decide (status ≤ 299)

/-- relay.ts line 36-38 (and the identical copies in each discord.ts):
`status === 429 || status >= 500`. -/
def shouldRetry (status : Nat) : Bool :=
  status == 429 || decide (500 ≤ status)

/-- The recorded failure string for a non-ok response:
`` `HTTP ${response.status}: ${text}` `` with `text` falling back to
`"Unknown error"` when the body is unreadable. -/
def httpErrorText (status : Nat) (bodyText : Option String) : String :=
  "HTTP " ++ toString status ++ ": " ++ bodyText.getD "Unknown error"

/-- relay.ts line 164 (and identical lines in each retrying discord.ts):
`baseDelayMs * Math.pow(2, attempt - 2)`, exact in ℚ.  Written with `mkRat`
(splitting on the sign of the exponent) so the kernel can evaluate it; the
theorem `backoffDelay_eq` below shows it equals the literal formula
`baseDelayMs * 2 ^ (attempt - 2)` with an integer exponent. -/
def backoffDelay (baseDelayMs attempt : Nat) : ℚ :=
  match (attempt : ℤ) - 2 with
  | .ofNat n => mkRat ((baseDelayMs : ℤ) * 2 ^ n) 1
  | .negSucc n => mkRat (baseDelayMs : ℤ) (2 ^ (n + 1))

/-- The backoff delay is exactly `baseDelayMs * 2 ^ (attempt - 2)` with a
true integer exponent, as the source computes it in floating point. -/
theorem backoffDelay_eq (baseDelayMs attempt : Nat) :
    backoffDelay baseDelayMs attempt =
      (baseDelayMs : ℚ) * (2 : ℚ) ^ ((attempt : ℤ) - 2) := by
  unfold backoffDelay
  cases h : (attempt : ℤ) - 2 with
  | ofNat n =>
    dsimp only
    rw [Rat.mkRat_eq_div, Int.ofNat_eq_natCast, zpow_natCast]
    push_cast
    ring
  | negSucc n =>
    dsimp only
    rw [Rat.mkRat_eq_div, zpow_negSucc]
    push_cast
    rw [div_eq_mul_inv]

/-- How the outcome of one attempt steers the loop: immediate success, immediate
non-retryable failure (both return), or a retryable failure recording an
error and possibly a new last status. -/
inductive AttemptStep where
  | succeed (status : Nat)
  | failNow (err : String) (status : Nat)
  | retryable (err : String) (statusUpdate : Option Nat)
deriving DecidableEq, Repr

/-- Classification performed by the body of the attempt loop in
`sendRelayRequest` (relay.ts lines 122-161): 2xx returns success;
a non-ok non-retryable status returns failure; a retryable status or any
thrown value records an error; `AbortError` records
`` `Request timeout (${timeoutMs}ms)` ``. -/
def relayClassify (timeoutMs : Nat) (o : AttemptOutcome) : AttemptStep :=
  match o with
  | .response status bodyText =>
    if responseOk status then .succeed status
    else if shouldRetry status then .retryable (httpErrorText status bodyText) (some status)
    else .failNow (httpErrorText status bodyText) status
  | .abortError _ => .retryable ("Request timeout (" ++ toString timeoutMs ++ "ms)") none
  | .errorThrown msg => .retryable msg none
  | .nonErrorThrown => .retryable "Unknown error" none

/-- Classification performed by the attempt loop of the retrying
`sendDiscordWebhook` (discord-chat-bridge discord.ts lines 231-251 and its
verbatim copies): identical to the relay loop except that the `catch`
treats every thrown `Error` (including an `AbortError`, which its fetch can
never produce since no abort controller exists) by its own message. -/
def discordClassify (o : AttemptOutcome) : AttemptStep :=
  match o with
  | .response status bodyText =>
    if responseOk status then .succeed status
    else if shouldRetry status then .retryable (httpErrorText status bodyText) (some status)
    else .failNow (httpErrorText status bodyText) status
  | .abortError msg => .retryable msg none
  | .errorThrown msg => .retryable msg none
  | .nonErrorThrown => .retryable "Unknown error" none

/-- Result type of `sendRelayRequest` (relay.ts lines 19-24). -/
structure RelayResult where
  success : Bool
  error : Option String
  attempts : Nat
  statusCode : Option Nat
deriving DecidableEq, Repr

/-- `RelayOptions` (relay.ts lines 10-14); every field optional. -/
structure RelayOptions where
  maxAttempts : Option Nat
  baseDelayMs : Option Nat
  timeoutMs : Option Nat
deriving DecidableEq, Repr

/-- `u` when present, otherwise `s`: how a status update folds into the
remembered `lastStatusCode`. -/
def optOr (u s : Option Nat) : Option Nat :=
  match u with
  | some x => some x
  | none => s

/-- The attempt loop of `sendRelayRequest` (relay.ts lines 121-176).
`fuel` counts the remaining loop iterations (`maxAttempts - attempt + 1`);
the fuel-exhausted case is the fall-through return of lines 171-176.  The
second component collects, in order, the sleeps actually awaited (a
computed delay ≤ 0 is skipped, lines 163-168). -/
def relayLoop (oracle : Nat → AttemptOutcome) (maxAttempts baseDelayMs timeoutMs : Nat) :
    Nat → Nat → String → Option Nat → RelayResult × List ℚ
  | 0, _, lastError, lastStatusCode =>
    (⟨false, some lastError, maxAttempts, lastStatusCode⟩, [])
  | fuel + 1, attempt, _lastError, lastStatusCode =>
    match relayClassify timeoutMs (oracle attempt) with
    | .succeed status => (⟨true, none, attempt, some status⟩, [])
    | .failNow err status => (⟨false, some err, attempt, some status⟩, [])
    | .retryable err statusUpdate =>
      let rest := relayLoop oracle maxAttempts baseDelayMs timeoutMs fuel
        (attempt + 1) err (optOr statusUpdate lastStatusCode)
      if attempt < maxAttempts then
        let d := backoffDelay baseDelayMs attempt
        if 0 < d then (rest.1, d :: rest.2) else rest
      else rest

/-- `options?.maxAttempts ?? 3` (relay.ts line 114). -/
def relayMaxAttempts (options : Option RelayOptions) : Nat :=
  (options.bind RelayOptions.maxAttempts).getD 3

/-- `options?.baseDelayMs ?? 1000` (relay.ts line 115). -/
def relayBaseDelay (options : Option RelayOptions) : Nat :=
  (options.bind RelayOptions.baseDelayMs).getD 1000

/-- `options?.timeoutMs ?? 30000` (relay.ts line 116). -/
def relayTimeout (options : Option RelayOptions) : Nat :=
  (options.bind RelayOptions.timeoutMs).getD 30000

/-- `sendRelayRequest` (relay.ts lines 108-177).  `url`, `body` and
`headers` are carried for signature fidelity; their effect on the network
is abstracted into `oracle`. -/
def sendRelayRequest {α : Type} (url : String) (body : α)
    (headers : List (String × String)) (oracle : Nat → AttemptOutcome)
    (options : Option RelayOptions) : RelayResult × List ℚ :=
  let _ := url
  let _ := body
  let _ := headers
  relayLoop oracle (relayMaxAttempts options) (relayBaseDelay options)
    (relayTimeout options) (relayMaxAttempts options) 1 "" none

/-- Result type of the retrying `sendDiscordWebhook` ( `WebhookResult`,
discord-chat-bridge discord.ts lines 198-202 and its verbatim copies). -/
structure WebhookResult where
  success : Bool
  error : Option String
  attempts : Nat
deriving DecidableEq, Repr

/-- `RetryOptions` of the retrying `sendDiscordWebhook`. -/
structure RetryOptions where
  maxAttempts : Option Nat
  baseDelayMs : Option Nat
deriving DecidableEq, Repr

/-- The attempt loop of the retrying `sendDiscordWebhook`
(discord-chat-bridge discord.ts lines 231-259; identical code appears in
discord-player-activity, discord-server-status and the retrying
moderation discord.ts). -/
def discordLoop (oracle : Nat → AttemptOutcome) (maxAttempts baseDelayMs : Nat) :
    Nat → Nat → String → WebhookResult × List ℚ
  | 0, _, lastError => (⟨false, some lastError, maxAttempts⟩, [])
  | fuel + 1, attempt, _lastError =>
    match discordClassify (oracle attempt) with
    | .succeed _ => (⟨true, none, attempt⟩, [])
    | .failNow err _ => (⟨false, some err, attempt⟩, [])
    | .retryable err _ =>
      let rest := discordLoop oracle maxAttempts baseDelayMs fuel (attempt + 1) err
      if attempt < maxAttempts then
        let d := backoffDelay baseDelayMs attempt
        if 0 < d then (rest.1, d :: rest.2) else rest
      else rest

/-- `options?.maxAttempts ?? 3` of the retrying `sendDiscordWebhook`. -/
def discordMaxAttempts (options : Option RetryOptions) : Nat :=
  (options.bind RetryOptions.maxAttempts).getD 3

/-- `options?.baseDelayMs ?? 1000` of the retrying `sendDiscordWebhook`. -/
def discordBaseDelay (options : Option RetryOptions) : Nat :=
  (options.bind RetryOptions.baseDelayMs).getD 1000

/-- The retrying `sendDiscordWebhook` (discord-chat-bridge discord.ts
lines 221-262 and its verbatim copies). -/
def sendDiscordWebhook {α : Type} (url : String) (payload : α)
    (oracle : Nat → AttemptOutcome) (options : Option RetryOptions) :
    WebhookResult × List ℚ :=
  let _ := url
  let _ := payload
  discordLoop oracle (discordMaxAttempts options) (discordBaseDelay options)
    (discordMaxAttempts options) 1 ""

/-- Result of the single-shot moderation `sendDiscordWebhook`
(src/unnamed/part_003 line 199): `{ success: boolean; error?: string }` —
no attempt count. -/
structure ModSendResult where
  success : Bool
  error : Option String
deriving DecidableEq, Repr

/-- The single-shot `sendDiscordWebhook` of the moderation discord.ts
(src/unnamed/part_003 lines 196-217): exactly one fetch, no retry, no
options. -/
def sendDiscordWebhookOnce {α : Type} (url : String) (payload : α)
    (o : AttemptOutcome) : ModSendResult :=
  let _ := url
  let _ := payload
  match o with
  | .response status bodyText =>
    if responseOk status then ⟨true, none⟩
    else ⟨false, some (httpErrorText status bodyText)⟩
  | .abortError msg => ⟨false, some msg⟩
  | .errorThrown msg => ⟨false, some msg⟩
  | .nonErrorThrown => ⟨false, some "Unknown error"⟩

/-! Infrastructure used by the theorems: explicit descriptions of the loop
state after a run of retryable attempts, and of the sleeps performed. -/

/-- `true` exactly when the step neither succeeds nor fails immediately. -/
def isRetryableStep : AttemptStep → Bool
  | .retryable _ _ => true
  | _ => false

/-- `true` exactly for an `AbortError` outcome. -/
def isAbort : AttemptOutcome → Bool
  | .abortError _ => true
  | _ => false

/-- The error string the relay loop records for a retryable outcome. -/
def stepErr (timeoutMs : Nat) (o : AttemptOutcome) : String :=
  match o with
  | .response status bodyText => httpErrorText status bodyText
  | .abortError _ => "Request timeout (" ++ toString timeoutMs ++ "ms)"
  | .errorThrown msg => msg
  | .nonErrorThrown => "Unknown error"

/-- Last-status tracking: a response outcome overwrites the remembered
status code, any thrown outcome leaves it unchanged. -/
def stepStatus (o : AttemptOutcome) (s : Option Nat) : Option Nat :=
  match o with
  | .response status _ => some status
  | _ => s

/-- `lastError` after attempts `a, a+1, ..., a+j-1` have all failed
retryably, starting from recorded error `e`. -/
def threadErr (timeoutMs : Nat) (oracle : Nat → AttemptOutcome) :
    String → Nat → Nat → String
  | e, _, 0 => e
  | _, a, j + 1 => threadErr timeoutMs oracle (stepErr timeoutMs (oracle a)) (a + 1) j

/-- `lastStatusCode` after attempts `a, ..., a+j-1` have all failed
retryably, starting from remembered status `s`. -/
def threadStatus (oracle : Nat → AttemptOutcome) :
    Option Nat → Nat → Nat → Option Nat
  | s, _, 0 => s
  | s, a, j + 1 => threadStatus oracle (stepStatus (oracle a) s) (a + 1) j

/-- The status of the last response received among attempts `1..k`, if any
attempt produced a response at all. -/
def lastStatusAmong (oracle : Nat → AttemptOutcome) : Nat → Option Nat
  | 0 => none
  | k + 1 =>
    match oracle (k + 1) with
    | .response status _ => some status
    | _ => lastStatusAmong oracle k

/-- The sleeps the loop performs after attempts `a, ..., a+j-1` when each
of them fails retryably: one sleep of `backoffDelay baseDelayMs i` per
attempt `i` that is not the last allowed one (`i < maxAttempts`) and whose
computed delay is positive. -/
def posDelays (baseDelayMs maxAttempts : Nat) : Nat → Nat → List ℚ
  | _, 0 => []
  | a, j + 1 =>
    (if a < maxAttempts ∧ 0 < backoffDelay baseDelayMs a
      then [backoffDelay baseDelayMs a] else []) ++
    posDelays baseDelayMs maxAttempts (a + 1) j

/-- Forgets the `statusCode` field: the shape in which the relay delivery
result is comparable with the `WebhookResult` of the Discord senders. -/
def toWebhookResult (r : RelayResult) : WebhookResult :=
  ⟨r.success, r.error, r.attempts⟩

/-! The webhook-relay handler (src/unnamed/part_001) and the shared
signature gate of the router-based handlers. -/

/-- JavaScript string truthiness for an optional string: `undefined` and
`""` are falsy. -/
def isTruthyStr : Option String → Bool
  | some s => s != ""
  | none => false

/-- Exact-key lookup in a header map, modeled as the ordered entry list of
the JavaScript `Record<string, string>`. -/
def lookupHeader (headers : List (String × String)) (key : String) : Option String :=
  (headers.find? (fun kv => kv.1 == key)).map (fun kv => kv.2)

/-- JavaScript object assignment `obj[key] = value` on the ordered entry
list: an existing key keeps its position and gets the new value, a new key
is appended. -/
def recordSet (m : List (String × String)) (key value : String) :
    List (String × String) :=
  if m.any (fun kv => kv.1 == key) then
    m.map (fun kv => if kv.1 == key then (key, value) else kv)
  else m ++ [(key, value)]

/-- `true` when the map has an entry for `key`. -/
def hasKey (m : List (String × String)) (key : String) : Bool :=
  m.any (fun kv => kv.1 == key)

/-- JavaScript `toLowerCase()` on an (ASCII) header name, written as a
character map over the underlying character data so the kernel can evaluate it. -/
def lowerStr (s : String) : String := String.mk (s.data.map Char.toLower)

/-- JavaScript `startsWith(p)`, written via `List.isPrefixOf` on the
underlying character data of both strings so the kernel can evaluate it. -/
def strStartsWith (s p : String) : Bool := p.data.isPrefixOf s.data

/-- `IntegrationConfig` of webhook-relay (types.ts lines 4-15). -/
structure IntegrationConfig where
  targetUrl : String
  eventPatterns : Option (List String)
  customHeaders : Option (List (String × String))
  includeOriginalHeaders : Option Bool
  transformPayload : Option Bool
  maxRetries : Option Nat
  retryDelayMs : Option Nat
  timeoutMs : Option Nat
  secretHeader : Option String
  secretValue : Option String
deriving DecidableEq, Repr

/-- `HandlerContext` of webhook-relay (types.ts lines 20-23). -/
structure HandlerContext where
  config : IntegrationConfig
  webhookSecret : Option String
deriving DecidableEq, Repr

/-- The decoded inbound event envelope (`WebhookPayload` of the SDK, as
described by the spec data model); `data` is an uninterpreted value kept as a
string. -/
structure WebhookPayload where
  event : String
  timestamp : String
  organizationId : String
  userId : Option String
  data : String
deriving DecidableEq, Repr

/-- The transformed relay envelope (`PayloadEnvelope`, types.ts 28-35). -/
structure PayloadEnvelope where
  source : String
  event : String
  timestamp : String
  organizationId : String
  userId : Option String
  data : String
deriving DecidableEq, Repr

/-- `WebhookResponse` `{ok, message}` returned to the inbound caller.
Modelled from the spec: the SDK type of the same name (§3 of the spec). -/
structure WebhookResponse where
  ok : Bool
  message : String
deriving DecidableEq, Repr

/-- Modelled from the spec: the SDK helper producing `{ok:true, message}`. -/
def successResponse (message : String) : WebhookResponse := ⟨true, message⟩

/-- Modelled from the spec: the SDK helper producing `{ok:false, message}`. -/
def errorResponse (message : String) : WebhookResponse := ⟨false, message⟩

/-- Modelled from the spec: `matchesPattern` of the SDK (§4.3): a pattern
with a trailing `*` matches any event starting with the literal part
before the `*`; a pattern without wildcard must match exactly. -/
def matchesPattern (event pattern : String) : Bool :=
  if pattern.endsWith "*" then event.startsWith (pattern.dropRight 1)
  else event == pattern

/-- `matchesEventPatterns` (relay.ts lines 43-49): an absent or empty
pattern list matches everything, otherwise some pattern must match. -/
def matchesEventPatterns (event : String) (patterns : Option (List String)) : Bool :=
  match patterns with
  | none => true
  | some ps => if ps.isEmpty then true else ps.any (fun p => matchesPattern event p)

/-- First two header-building stages of `buildRelayHeaders` (relay.ts
lines 58-76): start from `Content-Type: application/json`, forward the
original headers whose lowercased key starts with `x-sentinel-` (unless
`includeOriginalHeaders` is set to false), then apply `customHeaders`. -/
def relayBaseHeaders (originalHeaders : List (String × String))
    (config : IntegrationConfig) : List (String × String) :=
  let h0 := [("Content-Type", "application/json")]
  let h1 :=
    if config.includeOriginalHeaders.getD true then
      originalHeaders.foldl
        (fun acc kv =>
          if strStartsWith (lowerStr kv.1) "x-sentinel-" then recordSet acc kv.1 kv.2
          else acc)
        h0
    else h0
  match config.customHeaders with
  | some ch => ch.foldl (fun acc kv => recordSet acc kv.1 kv.2) h1
  | none => h1

/-- `buildRelayHeaders` (relay.ts lines 54-84): the two stages above, then
the secret header when both `secretHeader` and `secretValue` are truthy
(lines 79-81). -/
def buildRelayHeaders (originalHeaders : List (String × String))
    (config : IntegrationConfig) : List (String × String) :=
  let h := relayBaseHeaders originalHeaders config
  if isTruthyStr config.secretHeader && isTruthyStr config.secretValue then
    recordSet h (config.secretHeader.getD "") (config.secretValue.getD "")
  else h

/-- `transformPayload` (relay.ts lines 89-103): passthrough when disabled,
otherwise re-wrap into the fixed envelope whose `source` field is the string sentinel. -/
def transformPayload (payload : WebhookPayload) (transform : Bool) :
    WebhookPayload ⊕ PayloadEnvelope :=
  if transform then
    .inr ⟨"sentinel", payload.event, payload.timestamp, payload.organizationId,
      payload.userId, payload.data⟩
  else .inl payload

/-- A single-quote character as a string, for building the skip message
`Event <q><event><q> does not match patterns, skipping` where `<q>` is a single quote. -/
def sq : String := String.mk [Char.ofNat 39]

/-- `formatSuccessMessage` of the relay handler (part_001 lines 20-25);
`result.statusCode` is JS-truthy only when present and nonzero. -/
def formatSuccessMessage (result : RelayResult) : String :=
  let base := "Relayed to " ++
    (match result.statusCode with
      | some s => if s == 0 then "target" else "(" ++ toString s ++ ")"
      | none => "target")
  if 1 < result.attempts then
    base ++ " (" ++ toString result.attempts ++ " attempts)"
  else base

/-- `formatErrorMessage` of the relay handler (part_001 lines 30-32); when
`error` is absent JavaScript interpolation prints `undefined`. -/
def formatErrorMessage (result : RelayResult) : String :=
  "Relay failed after " ++ toString result.attempts ++ " attempt" ++
    (if result.attempts != 1 then "s" else "") ++ ": " ++
    (result.error.getD "undefined")

/-- The remote target as seen by the relay handler: for the outbound
request `POST url` with the given body and headers, the outcome `fetch`
observes on attempt `n`.  The response may depend on the outbound request
— in particular on the forwarded headers — which refines the bare
attempt-indexed oracle of `sendRelayRequest` (the handler sends the same
request on every attempt, so per-request behavior plus an attempt index is
exactly what the code can observe). -/
abbrev RelayNetwork : Type :=
  String → (WebhookPayload ⊕ PayloadEnvelope) → List (String × String) →
    Nat → AttemptOutcome

/-- Body of the relay `handleWebhook` after the signature gate (part_001
lines 59-88).  `parse` abstracts `JSON.parse` (a malformed body, which
would throw, is out of scope); `network` abstracts the remote target,
applied to the outbound request that `sendRelayRequest` would POST.  The
boolean records whether `sendRelayRequest` was invoked at all. -/
def handleRelayEvent (ctx : HandlerContext) (parse : String → WebhookPayload)
    (network : RelayNetwork) (rawBody : String)
    (headers : List (String × String)) : WebhookResponse × Bool :=
  let payload := parse rawBody
  let url := ctx.config.targetUrl
  if url == "" then (successResponse "Target URL not configured, skipping", false)
  else if !(matchesEventPatterns payload.event ctx.config.eventPatterns) then
    (successResponse ("Event " ++ sq ++ payload.event ++ sq ++
      " does not match patterns, skipping"), false)
  else
    let relayHeaders := buildRelayHeaders headers ctx.config
    let relayBody := transformPayload payload (ctx.config.transformPayload.getD false)
    let result := (sendRelayRequest url relayBody relayHeaders
      (network url relayBody relayHeaders)
      (some ⟨some (ctx.config.maxRetries.getD 3),
             some (ctx.config.retryDelayMs.getD 1000),
             some (ctx.config.timeoutMs.getD 30000)⟩)).1
    if !result.success then (errorResponse (formatErrorMessage result), true)
    else (successResponse (formatSuccessMessage result), true)

/-- The relay `handleWebhook` (part_001 lines 44-88): signature gate, then
the event-handling body.  `verify` abstracts the SDK function
`verifyWebhookSignature`; `signature` of value `""` is JS-falsy and hits
the `Missing signature header` branch. -/
def handleWebhookRelay (verify : String → String → String → Bool)
    (ctx : HandlerContext) (parse : String → WebhookPayload)
    (network : RelayNetwork) (rawBody : String)
    (headers : List (String × String)) : WebhookResponse × Bool :=
  if isTruthyStr ctx.webhookSecret then
    match lookupHeader headers "x-sentinel-signature" with
    | none => (errorResponse "Missing signature header", false)
    | some signature =>
      if signature == "" then (errorResponse "Missing signature header", false)
      else if verify rawBody signature (ctx.webhookSecret.getD "") then
        handleRelayEvent ctx parse network rawBody headers
      else (errorResponse "Invalid signature", false)
  else handleRelayEvent ctx parse network rawBody headers

/-- The `handleWebhook` closure shared verbatim by the router-based
handlers (part_000 lines 114-131, part_002 lines 144-163, and the
chat-bridge and player-activity handler.ts): signature gate, then
`router(JSON.parse(rawBody))`.  The router built by `createWebhookRouter`
over the event handlers of the integration is abstracted as the parameter
`router`; `verify` and `parse` are as in `handleWebhookRelay`. -/
def handleWebhookRouted (verify : String → String → String → Bool)
    (webhookSecret : Option String) (router : WebhookPayload → WebhookResponse)
    (parse : String → WebhookPayload) (rawBody : String)
    (headers : List (String × String)) : WebhookResponse :=
  if isTruthyStr webhookSecret then
    match lookupHeader headers "x-sentinel-signature" with
    | none => errorResponse "Missing signature header"
    | some signature =>
      if signature == "" then errorResponse "Missing signature header"
      else if verify rawBody signature (webhookSecret.getD "") then
        router (parse rawBody)
      else errorResponse "Invalid signature"
  else router (parse rawBody)

/-- The status-update component a retryable outcome carries in the relay
loop: only a response refreshes `lastStatusCode`. -/
def respUpdate : AttemptOutcome → Option Nat
  | .response status _ => some status
  | _ => none

/-- relay.ts lines 123-124: for every attempt an abort timer is armed,
unconditionally, with delay exactly `timeoutMs`
(`setTimeout(() => controller.abort(), timeoutMs)`). -/
def relayAbortTimerDelay (timeoutMs : Nat) : Option Nat := some timeoutMs

/-- Modelled from the spec: the DeliveryOptions contract `timeoutMs ... 0 =
no timeout` (§3), i.e. no abort timer at all when `timeoutMs` is 0. -/
def specAbortTimerDelay (timeoutMs : Nat) : Option Nat :=
  if timeoutMs = 0 then none else some timeoutMs

/-! Lemmas about the attempt loop. -/

/-- A retryable classification carries the recorded error `stepErr` and
the status update `respUpdate` of the outcome. -/
theorem classify_retryable (timeoutMs : Nat) (o : AttemptOutcome)
    (h : isRetryableStep (relayClassify timeoutMs o) = true) :
    relayClassify timeoutMs o = .retryable (stepErr timeoutMs o) (respUpdate o) := by
  cases o with
  | response status bodyText =>
    simp only [relayClassify, stepErr, respUpdate] at h ⊢
    split_ifs at h ⊢ with h1 h2
    · simp [isRetryableStep] at h
    · rfl
    · simp [isRetryableStep] at h
  | abortError m => rfl
  | errorThrown m => rfl
  | nonErrorThrown => rfl

/-- Folding a status update into the remembered status is `stepStatus`. -/
theorem respUpdate_stepStatus (o : AttemptOutcome) (s : Option Nat) :
    optOr (respUpdate o) s = stepStatus o s := by
  cases o <;> rfl

/-- Inside its fuel budget, the loop never reports fewer attempts than the
attempt number it starts at. -/
theorem relayLoop_attempts_ge (oracle : Nat → AttemptOutcome) (M base tmo : Nat) :
    ∀ fuel a e s, fuel + a = M + 1 → a ≤ M →
      a ≤ ((relayLoop oracle M base tmo fuel a e s).1).attempts := by
  intro fuel
  induction fuel with
  | zero => intro a e s hfa ha; omega
  | succ f ih =>
    intro a e s hfa ha
    cases hc : relayClassify tmo (oracle a) with
    | succeed st => simp [relayLoop, hc]
    | failNow e2 st => simp [relayLoop, hc]
    | retryable e2 su =>
      simp only [relayLoop, hc]
      by_cases hM : a < M
      · have hrec := ih (a + 1) e2 (optOr su s) (by omega) (by omega)
        split_ifs with h1
        · exact le_trans (Nat.le_succ a) hrec
        · exact le_trans (Nat.le_succ a) hrec
      · have hf : f = 0 := by omega
        subst hf
        split_ifs
        simp only [relayLoop]
        exact ha

/-- The sleeps a loop run performs are exactly the positive backoff delays
of the attempts it consumed, except the last one. -/
theorem relayLoop_trace (oracle : Nat → AttemptOutcome) (M base tmo : Nat) :
    ∀ fuel a e s, fuel + a = M + 1 →
      (relayLoop oracle M base tmo fuel a e s).2 =
        posDelays base M a
          (((relayLoop oracle M base tmo fuel a e s).1).attempts - a) := by
  intro fuel
  induction fuel with
  | zero =>
    intro a e s hfa
    have ha : M - a = 0 := by omega
    simp [relayLoop, ha, posDelays]
  | succ f ih =>
    intro a e s hfa
    cases hc : relayClassify tmo (oracle a) with
    | succeed st => simp [relayLoop, hc, Nat.sub_self, posDelays]
    | failNow e2 st => simp [relayLoop, hc, Nat.sub_self, posDelays]
    | retryable e2 su =>
      simp only [relayLoop, hc]
      by_cases hM : a < M
      · have hge := relayLoop_attempts_ge oracle M base tmo f (a + 1) e2
          (optOr su s) (by omega) (by omega)
        have hrec := ih (a + 1) e2 (optOr su s) (by omega)
        have hsub :
            ((relayLoop oracle M base tmo f (a + 1) e2 (optOr su s)).1).attempts - a =
            (((relayLoop oracle M base tmo f (a + 1) e2
              (optOr su s)).1).attempts - (a + 1)) + 1 := by
          omega
        by_cases hd : 0 < backoffDelay base a
        · simp only [hM, if_true, hd, if_true]
          simp only [hsub, posDelays, hrec]
          simp [hM, hd]
        · simp only [hM, if_true, hd, if_false]
          simp only [hsub, posDelays, hrec]
          simp [hM, hd]
      · have hf : f = 0 := by omega
        subst hf
        have ha : M - a = 0 := by omega
        simp [relayLoop, hM, ha, posDelays]

/-- Running the loop across `j` consecutive retryable attempts reaches the
state with attempt counter advanced by `j`, the error and remembered
status threaded by `threadErr` and `threadStatus`, and the same final
result. -/
theorem relayLoop_run (oracle : Nat → AttemptOutcome) (M base tmo : Nat) :
    ∀ j fuel a e s, fuel + a = M + 1 → a + j ≤ M + 1 →
      (∀ i, a ≤ i → i < a + j →
        isRetryableStep (relayClassify tmo (oracle i)) = true) →
      (relayLoop oracle M base tmo fuel a e s).1 =
        (relayLoop oracle M base tmo (fuel - j) (a + j)
          (threadErr tmo oracle e a j) (threadStatus oracle s a j)).1 := by
  intro j
  induction j with
  | zero => intro fuel a e s _ _ _; simp [threadErr, threadStatus]
  | succ jj ih =>
    intro fuel a e s hfa haj hret
    obtain ⟨f, rfl⟩ : ∃ f, fuel = f + 1 := ⟨fuel - 1, by omega⟩
    have hcr := hret a (le_refl a) (by omega)
    have hc := classify_retryable tmo (oracle a) hcr
    simp only [relayLoop, hc, respUpdate_stepStatus]
    have hrec := ih f (a + 1) (stepErr tmo (oracle a)) (stepStatus (oracle a) s)
      (by omega) (by omega)
      (fun i h1 h2 => hret i (by omega) (by omega))
    have hth1 : threadErr tmo oracle e a (jj + 1) =
        threadErr tmo oracle (stepErr tmo (oracle a)) (a + 1) jj := rfl
    have hth2 : threadStatus oracle s a (jj + 1) =
        threadStatus oracle (stepStatus (oracle a) s) (a + 1) jj := rfl
    have harith : f + 1 - (jj + 1) = f - jj := by omega
    have harith2 : a + (jj + 1) = (a + 1) + jj := by omega
    rw [hth1, hth2, harith, harith2]
    split_ifs <;> exact hrec

/-- After `j + 1` retryable attempts the threaded error is the error of
the last of them. -/
theorem threadErr_last (tmo : Nat) (oracle : Nat → AttemptOutcome) :
    ∀ j a e, threadErr tmo oracle e a (j + 1) = stepErr tmo (oracle (a + j)) := by
  intro j
  induction j with
  | zero => intro a e; simp [threadErr]
  | succ jj ih =>
    intro a e
    have h1 : threadErr tmo oracle e a (jj + 1 + 1) =
        threadErr tmo oracle (stepErr tmo (oracle a)) (a + 1) (jj + 1) := rfl
    rw [h1, ih, Nat.add_assoc, Nat.add_comm 1 jj]

/-- Unfolding the threaded status from the far end. -/
theorem threadStatus_step (oracle : Nat → AttemptOutcome) :
    ∀ j s a, threadStatus oracle s a (j + 1) =
      stepStatus (oracle (a + j)) (threadStatus oracle s a j) := by
  intro j
  induction j with
  | zero => intro s a; simp [threadStatus, stepStatus]
  | succ jj ih =>
    intro s a
    have h1 : threadStatus oracle s a (jj + 1 + 1) =
        threadStatus oracle (stepStatus (oracle a) s) (a + 1) (jj + 1) := rfl
    have h2 : threadStatus oracle s a (jj + 1) =
        threadStatus oracle (stepStatus (oracle a) s) (a + 1) jj := rfl
    rw [h1, ih, h2, Nat.add_assoc, Nat.add_comm 1 jj]

/-- The status threaded from `none` through attempts `1..k` is the status
of the last response received among them, if any. -/
theorem threadStatus_lastAmong (oracle : Nat → AttemptOutcome) :
    ∀ k, threadStatus oracle none 1 k = lastStatusAmong oracle k := by
  intro k
  induction k with
  | zero => rfl
  | succ kk ih =>
    rw [threadStatus_step, ih]
    have h : 1 + kk = kk + 1 := by omega
    rw [h]
    cases ho : oracle (kk + 1) <;> simp [lastStatusAmong, stepStatus, ho]

/-- With a positive base delay every computed backoff delay is positive. -/
theorem backoffDelay_pos (base a : Nat) (hb : 0 < base) :
    0 < backoffDelay base a := by
  rw [backoffDelay_eq]
  have hbq : (0 : ℚ) < (base : ℚ) := by exact_mod_cast hb
  exact mul_pos hbq (zpow_pos (by norm_num) _)

/-- With a positive base, a window of attempts all below the cap performs
one sleep per attempt. -/
theorem posDelays_length (base M : Nat) (hb : 0 < base) :
    ∀ j a, a + j ≤ M → (posDelays base M a j).length = j := by
  intro j
  induction j with
  | zero => intro a _; rfl
  | succ jj ih =>
    intro a h
    have hd : 0 < backoffDelay base a := backoffDelay_pos base a hb
    have hM : a < M := by omega
    simp [posDelays, hM, hd, ih (a + 1) (by omega)]

/-- A relay delivery whose first `k - 1` attempts all fail retryably
reaches attempt `k` with the threaded error and status. -/
theorem sendRelay_run {α : Type} (url : String) (body : α)
    (headers : List (String × String)) (oracle : Nat → AttemptOutcome)
    (options : Option RelayOptions) (k : Nat) (hk1 : 1 ≤ k)
    (hk2 : k ≤ relayMaxAttempts options)
    (hret : ∀ i, 1 ≤ i → i < k →
      isRetryableStep (relayClassify (relayTimeout options) (oracle i)) = true) :
    ((sendRelayRequest url body headers oracle options).1) =
      ((relayLoop oracle (relayMaxAttempts options) (relayBaseDelay options)
        (relayTimeout options) (relayMaxAttempts options - (k - 1)) k
        (threadErr (relayTimeout options) oracle "" 1 (k - 1))
        (threadStatus oracle none 1 (k - 1))).1) := by
  have h := relayLoop_run oracle (relayMaxAttempts options) (relayBaseDelay options)
    (relayTimeout options) (k - 1) (relayMaxAttempts options) 1 "" none
    (by omega) (by omega) (fun i hi1 hi2 => hret i hi1 (by omega))
  have hk : 1 + (k - 1) = k := by omega
  rw [hk] at h
  exact h

/-- Away from `AbortError` outcomes the two classifications agree. -/
theorem classify_agree (tmo : Nat) (o : AttemptOutcome) (h : isAbort o = false) :
    discordClassify o = relayClassify tmo o := by
  cases o <;> simp_all [discordClassify, relayClassify, isAbort]

/-- For oracles that never throw `AbortError`, the Discord retry loop is
the relay retry loop with the `statusCode` field forgotten. -/
theorem discord_relay_loop (oracle : Nat → AttemptOutcome) (M base tmo : Nat)
    (hna : ∀ i, isAbort (oracle i) = false) :
    ∀ fuel a e s,
      discordLoop oracle M base fuel a e =
        (toWebhookResult ((relayLoop oracle M base tmo fuel a e s).1),
         (relayLoop oracle M base tmo fuel a e s).2) := by
  intro fuel
  induction fuel with
  | zero => intro a e s; rfl
  | succ f ih =>
    intro a e s
    have hc := classify_agree tmo (oracle a) (hna a)
    cases hr : relayClassify tmo (oracle a) with
    | succeed st => simp [relayLoop, discordLoop, hc, hr, toWebhookResult]
    | failNow e2 st => simp [relayLoop, discordLoop, hc, hr, toWebhookResult]
    | retryable e2 su =>
      simp only [relayLoop, discordLoop, hc, hr]
      rw [ih (a + 1) e2 (optOr su s)]
      split_ifs <;> rfl

/-! Lemmas about header records. -/

/-- A guarded fold is a plain fold over the filtered list. -/
theorem foldl_guard_filter {A B : Type} (p : A → Bool) (f : B → A → B) :
    ∀ (l : List A) (init : B),
      l.foldl (fun acc x => if p x then f acc x else acc) init =
        (l.filter p).foldl f init := by
  intro l
  induction l with
  | nil => intro init; rfl
  | cons a t ih =>
    intro init
    by_cases hp : p a = true
    · simp [List.foldl, List.filter, hp, ih]
    · simp only [Bool.not_eq_true] at hp
      simp [List.foldl, List.filter, hp, ih]

/-- `recordSet` never removes a key that is present. -/
theorem hasKey_recordSet (m : List (String × String)) (a v k : String)
    (h : hasKey m k = true) : hasKey (recordSet m a v) k = true := by
  unfold recordSet
  by_cases hm : m.any (fun kv => kv.1 == a) = true
  · simp only [hm, if_true]
    rw [hasKey, List.any_map]
    rw [hasKey, List.any_eq_true] at h
    obtain ⟨kv, hmem, hk⟩ := h
    rw [List.any_eq_true]
    refine ⟨kv, hmem, ?_⟩
    by_cases ha : kv.1 == a
    · have h1 : kv.1 = k := eq_of_beq hk
      have h2 : kv.1 = a := eq_of_beq ha
      simp [Function.comp, ha, ← h2, h1]
    · simp only [Bool.not_eq_true] at ha
      simp [Function.comp, ha, hk]
  · simp only [Bool.not_eq_true] at hm
    have h' : (m.any fun kv => kv.1 == k) = true := h
    simp [hm, hasKey, List.any_append, h']

/-- Folding `recordSet` over any list never removes a present key. -/
theorem hasKey_foldl_recordSet (k : String) :
    ∀ (l : List (String × String)) (m : List (String × String)),
      hasKey m k = true →
      hasKey (l.foldl (fun acc kv => recordSet acc kv.1 kv.2) m) k = true := by
  intro l
  induction l with
  | nil => intro m h; exact h
  | cons a t ih =>
    intro m h
    exact ih (recordSet m a.1 a.2) (hasKey_recordSet m a.1 a.2 k h)

/-- After `recordSet m k v` the key `k` maps to `v`. -/
theorem lookup_recordSet (m : List (String × String)) (k v : String) :
    lookupHeader (recordSet m k v) k = some v := by
  unfold recordSet
  by_cases hm : m.any (fun kv => kv.1 == k) = true
  · simp only [hm, if_true]
    unfold lookupHeader
    induction m with
    | nil => simp at hm
    | cons a t ih =>
      by_cases ha : a.1 == k
      · simp [List.find?, ha]
      · simp only [Bool.not_eq_true] at ha
        have hm2 : t.any (fun kv => kv.1 == k) = true := by
          rw [List.any_cons] at hm
          simpa [ha] using hm
        simpa [List.find?, ha] using ih hm2
  · simp only [Bool.not_eq_true] at hm
    rw [if_neg (by simp [hm])]
    unfold lookupHeader
    rw [List.find?_append]
    have hnone : m.find? (fun kv => kv.1 == k) = none := by
      rw [List.find?_eq_none]
      intro x hx
      have := List.any_eq_false.mp hm x hx
      simpa using this
    simp [hnone, List.find?]

/-! Claim theorems. -/

/-- C1: for every relay delivery, and every retrying Discord delivery (on
outcome sequences free of `AbortError`, which their fetch cannot raise),
the sleeps performed are exactly one sleep of `baseDelayMs * 2^(n-2)` ms
after each retryably-failed attempt `n` that is followed by another
attempt, a computed delay ≤ 0 being skipped with no sleep; and with
`baseDelayMs = 1000` the delays before attempts 2, 3, 4 are 500 ms,
1000 ms and 2000 ms. -/
theorem backoff_wait_schedule :
    (∀ (α : Type) (url : String) (body : α) (headers : List (String × String))
      (oracle : Nat → AttemptOutcome) (options : Option RelayOptions),
      (sendRelayRequest url body headers oracle options).2 =
        posDelays (relayBaseDelay options) (relayMaxAttempts options) 1
          (((sendRelayRequest url body headers oracle options).1).attempts - 1)) ∧
    (∀ (α : Type) (url : String) (payload : α) (oracle : Nat → AttemptOutcome)
      (options : Option RetryOptions), (∀ i, isAbort (oracle i) = false) →
      (sendDiscordWebhook url payload oracle options).2 =
        posDelays (discordBaseDelay options) (discordMaxAttempts options) 1
          (((sendDiscordWebhook url payload oracle options).1).attempts - 1)) ∧
    (∀ base attempt : Nat, backoffDelay base attempt =
      (base : ℚ) * (2 : ℚ) ^ ((attempt : ℤ) - 2)) ∧
    backoffDelay 1000 1 = 500 ∧ backoffDelay 1000 2 = 1000 ∧
      backoffDelay 1000 3 = 2000 := by
  refine ⟨?_, ?_, backoffDelay_eq, by decide, by decide, by decide⟩
  · intro α url body headers oracle options
    exact relayLoop_trace oracle (relayMaxAttempts options)
      (relayBaseDelay options) (relayTimeout options)
      (relayMaxAttempts options) 1 "" none (by omega)
  · intro α url payload oracle options hna
    have heq := discord_relay_loop oracle (discordMaxAttempts options)
      (discordBaseDelay options) 0 hna (discordMaxAttempts options) 1 "" none
    have htr := relayLoop_trace oracle (discordMaxAttempts options)
      (discordBaseDelay options) 0 (discordMaxAttempts options) 1 "" none (by omega)
    show (discordLoop oracle (discordMaxAttempts options) (discordBaseDelay options)
        (discordMaxAttempts options) 1 "").2 =
      posDelays (discordBaseDelay options) (discordMaxAttempts options) 1
        (((discordLoop oracle (discordMaxAttempts options) (discordBaseDelay options)
          (discordMaxAttempts options) 1 "").1).attempts - 1)
    rw [heq]
    exact htr

/-- Witness for C1: a concrete all-500 delivery of the retrying Discord
sender satisfies both the abort-freeness hypothesis and the conclusion. -/
theorem backoff_wait_schedule_witness :
    (∀ i : Nat,
      isAbort ((fun _ => AttemptOutcome.response 500 (some "e")) i) = false) ∧
    (sendDiscordWebhook "u" (0 : Nat)
        (fun _ => AttemptOutcome.response 500 (some "e")) none).2 =
      posDelays (discordBaseDelay none) (discordMaxAttempts none) 1
        (((sendDiscordWebhook "u" (0 : Nat)
          (fun _ => AttemptOutcome.response 500 (some "e")) none).1).attempts - 1) :=
  ⟨fun _ => rfl,
   backoff_wait_schedule.2.1 Nat "u" 0
     (fun _ => AttemptOutcome.response 500 (some "e")) none (fun _ => rfl)⟩

/-- C2 (amended): a non-2xx response is retried (budget permitting)
exactly when `status = 429 ∨ 500 ≤ status`; restricted to the standard
status range (≤ 599) this is precisely the claimed "429 or a 5xx status"
(second conjunct), but the code also retries statuses ≥ 600, which the
fetch status domain (0-999) can deliver and which the claim, read with
5xx = 500-599, classifies as immediate failures (see the counterexample);
every status that is not retried makes the delivery return immediately
with `success = false`, the attempts consumed so far, that status code
and the error `HTTP <status>: <body or "Unknown error">`, without
consuming the remaining attempts. -/
theorem retry_classification :
    (∀ status : Nat, shouldRetry status = true ↔ (status = 429 ∨ 500 ≤ status)) ∧
    (∀ status : Nat, status ≤ 599 →
      (shouldRetry status = true ↔
        (status = 429 ∨ (500 ≤ status ∧ status ≤ 599)))) ∧
    (∀ (α : Type) (url : String) (body : α) (headers : List (String × String))
      (oracle : Nat → AttemptOutcome) (options : Option RelayOptions)
      (k status : Nat) (bodyText : Option String),
      1 ≤ k → k ≤ relayMaxAttempts options →
      (∀ i, 1 ≤ i → i < k →
        isRetryableStep (relayClassify (relayTimeout options) (oracle i)) = true) →
      oracle k = .response status bodyText → responseOk status = false →
      ((shouldRetry status = false →
        sendRelayRequest url body headers oracle options =
          (⟨false, some (httpErrorText status bodyText), k, some status⟩,
           posDelays (relayBaseDelay options) (relayMaxAttempts options) 1 (k - 1))) ∧
       (shouldRetry status = true → k < relayMaxAttempts options →
        k + 1 ≤ ((sendRelayRequest url body headers oracle options).1).attempts))) := by
  refine ⟨?_, ?_, ?_⟩
  · intro s
    simp [shouldRetry]
  · intro s hs
    simp only [shouldRetry, Bool.or_eq_true, beq_iff_eq, decide_eq_true_eq]
    omega
  · intro α url body headers oracle options k status bodyText hk1 hk2 hret hk ho
    have hrun := sendRelay_run url body headers oracle options k hk1 hk2 hret
    obtain ⟨f, hf⟩ : ∃ f, relayMaxAttempts options - (k - 1) = f + 1 :=
      ⟨relayMaxAttempts options - k, by omega⟩
    rw [hf] at hrun
    constructor
    · intro hsr
      have hcl : relayClassify (relayTimeout options) (oracle k) =
          .failNow (httpErrorText status bodyText) status := by
        rw [hk]
        simp [relayClassify, ho, hsr]
      have hfirst : ((sendRelayRequest url body headers oracle options).1) =
          ⟨false, some (httpErrorText status bodyText), k, some status⟩ := by
        rw [hrun]
        simp [relayLoop, hcl]
      have htr := relayLoop_trace oracle (relayMaxAttempts options)
        (relayBaseDelay options) (relayTimeout options)
        (relayMaxAttempts options) 1 "" none (by omega)
      refine Prod.ext hfirst ?_
      have hatt : ((relayLoop oracle (relayMaxAttempts options)
          (relayBaseDelay options) (relayTimeout options)
          (relayMaxAttempts options) 1 "" none).1).attempts = k :=
        congrArg RelayResult.attempts hfirst
      rw [show (sendRelayRequest url body headers oracle options).2 =
        (relayLoop oracle (relayMaxAttempts options) (relayBaseDelay options)
          (relayTimeout options) (relayMaxAttempts options) 1 "" none).2 from rfl]
      rw [htr, hatt]
    · intro hsr hkM
      have hcl : relayClassify (relayTimeout options) (oracle k) =
          .retryable (httpErrorText status bodyText) (some status) := by
        rw [hk]
        simp [relayClassify, ho, hsr]
      rw [show (sendRelayRequest url body headers oracle options).1 =
        (relayLoop oracle (relayMaxAttempts options) (relayBaseDelay options)
          (relayTimeout options) (relayMaxAttempts options) 1 "" none).1 from rfl]
      rw [show (relayLoop oracle (relayMaxAttempts options) (relayBaseDelay options)
          (relayTimeout options) (relayMaxAttempts options) 1 "" none).1 =
        (relayLoop oracle (relayMaxAttempts options) (relayBaseDelay options)
          (relayTimeout options) (f + 1) k
          (threadErr (relayTimeout options) oracle "" 1 (k - 1))
          (threadStatus oracle none 1 (k - 1))).1 from hrun]
      simp only [relayLoop, hcl]
      have hge := relayLoop_attempts_ge oracle (relayMaxAttempts options)
        (relayBaseDelay options) (relayTimeout options) f (k + 1)
        (httpErrorText status bodyText)
        (optOr (some status) (threadStatus oracle none 1 (k - 1)))
        (by omega) (by omega)
      split_ifs with h1
      · exact hge
      · exact hge

/-- Counterexample for C2 as stated: status 600 is neither 429 nor a 5xx
status (500-599 — the fetch status domain reaches 999, so such responses
are representable), and budget remains after attempt 1 of 2, so the claim
predicts an immediate return with `attempts = 1`; instead `shouldRetry`
classifies 600 as retryable (`500 ≤ 600`), the delivery consumes the
second attempt too, and the attempt count is not the attempts consumed so
far at the offending response. -/
theorem status600_not_short_circuited :
    shouldRetry 600 = true ∧ ¬ (600 = 429 ∨ (500 ≤ 600 ∧ 600 ≤ 599)) ∧
    ((sendRelayRequest "u" (0 : Nat) [] (fun _ => .response 600 (some "b"))
      (some ⟨some 2, some 0, some 1⟩)).1) =
      ⟨false, some "HTTP 600: b", 2, some 600⟩ ∧
    ¬ (((sendRelayRequest "u" (0 : Nat) [] (fun _ => .response 600 (some "b"))
      (some ⟨some 2, some 0, some 1⟩)).1).attempts = 1) ∧
    ¬ (((sendRelayRequest "u" (0 : Nat) [] (fun _ => .response 600 (some "b"))
      (some ⟨some 2, some 0, some 1⟩)).1) =
      ⟨false, some "HTTP 600: b", 1, some 600⟩) :=
  ⟨by decide, by decide, by decide, by decide, by decide⟩

/-- C3 (amended): `sendRelayRequest` and the retrying `sendDiscordWebhook`
(shared verbatim by discord-chat-bridge, discord-player-activity,
discord-server-status and the retrying moderation discord.ts) implement
the same bounded-retry delivery: on any abort-free outcome sequence, with
equal effective options, the Discord result is exactly the relay result
with `statusCode` forgotten, and the sleep traces coincide.  The
single-shot moderation sender (part_003) does not share this algorithm
(see the counterexample). -/
theorem delivery_engines_agree :
    ∀ (α β : Type) (url1 url2 : String) (body : α) (payload : β)
      (headers : List (String × String)) (oracle : Nat → AttemptOutcome)
      (dOptions : Option RetryOptions) (rOptions : Option RelayOptions),
      discordMaxAttempts dOptions = relayMaxAttempts rOptions →
      discordBaseDelay dOptions = relayBaseDelay rOptions →
      (∀ i, isAbort (oracle i) = false) →
      sendDiscordWebhook url2 payload oracle dOptions =
        (toWebhookResult ((sendRelayRequest url1 body headers oracle rOptions).1),
         (sendRelayRequest url1 body headers oracle rOptions).2) := by
  intro α β url1 url2 body payload headers oracle dOptions rOptions hM hB hna
  show discordLoop oracle (discordMaxAttempts dOptions) (discordBaseDelay dOptions)
      (discordMaxAttempts dOptions) 1 "" = _
  rw [hM, hB]
  exact discord_relay_loop oracle (relayMaxAttempts rOptions)
    (relayBaseDelay rOptions) (relayTimeout rOptions) hna
    (relayMaxAttempts rOptions) 1 "" none

/-- Witness for C3: concrete matching options and an abort-free oracle. -/
theorem delivery_engines_agree_witness :
    sendDiscordWebhook "d" (0 : Nat)
        (fun _ => AttemptOutcome.response 503 none) (some ⟨some 2, some 8⟩) =
      (toWebhookResult ((sendRelayRequest "r" (1 : Nat) []
          (fun _ => AttemptOutcome.response 503 none)
          (some ⟨some 2, some 8, some 7⟩)).1),
       (sendRelayRequest "r" (1 : Nat) []
          (fun _ => AttemptOutcome.response 503 none)
          (some ⟨some 2, some 8, some 7⟩)).2) :=
  delivery_engines_agree Nat Nat "r" "d" 1 0 []
    (fun _ => AttemptOutcome.response 503 none)
    (some ⟨some 2, some 8⟩) (some ⟨some 2, some 8, some 7⟩)
    (by decide) (by decide) (fun _ => rfl)

/-- Counterexample for C3 as stated: on the outcome sequence
(500, then 204) every retrying sender succeeds with `attempts = 2`, while
the moderation sender of part_003 performs exactly one attempt and has
already returned failure — the five packages do not all deliver with the
same bounded-retry algorithm. -/
theorem moderation_sender_single_shot :
    ((sendDiscordWebhook "u" (0 : Nat)
        (fun i => if i == 1 then .response 500 (some "b") else .response 204 none)
        none).1) = ⟨true, none, 2⟩ ∧
    sendDiscordWebhookOnce "u" (0 : Nat) (.response 500 (some "b")) =
      ⟨false, some "HTTP 500: b"⟩ :=
  ⟨by decide, by decide⟩

/-- Witness for C2: a single 404 on attempt 1 returns immediately with
`attempts = 1`, that status and the formatted error. -/
theorem retry_classification_witness :
    sendRelayRequest "u" (0 : Nat) [] (fun _ => .response 404 (some "nf")) none =
      (⟨false, some "HTTP 404: nf", 1, some 404⟩,
       posDelays (relayBaseDelay none) (relayMaxAttempts none) 1 0) :=
  (retry_classification.2.2 Nat "u" 0 [] (fun _ => .response 404 (some "nf")) none
      1 404 (some "nf") (by decide) (by decide) (by intro i h1 h2; omega)
      rfl (by decide)).1 (by decide)

/-- C4 (amended): when every one of the `N = maxAttempts ≥ 1` attempts
fails retryably, the delivery returns `success = false`, `attempts = N`,
the last recorded error (the error of attempt `N`), and the status of the
last response received if any; it sleeps exactly once per attempt except
the last — which is `N - 1` sleeps whenever `baseDelayMs > 0`, but zero
sleeps when `baseDelayMs = 0` (every computed delay is then ≤ 0 and
skipped; see the counterexample). -/
theorem retry_exhaustion :
    ∀ (α : Type) (url : String) (body : α) (headers : List (String × String))
      (oracle : Nat → AttemptOutcome) (options : Option RelayOptions),
      1 ≤ relayMaxAttempts options →
      (∀ i, 1 ≤ i → i ≤ relayMaxAttempts options →
        isRetryableStep (relayClassify (relayTimeout options) (oracle i)) = true) →
      sendRelayRequest url body headers oracle options =
        (⟨false,
          some (stepErr (relayTimeout options) (oracle (relayMaxAttempts options))),
          relayMaxAttempts options, lastStatusAmong oracle (relayMaxAttempts options)⟩,
         posDelays (relayBaseDelay options) (relayMaxAttempts options) 1
           (relayMaxAttempts options - 1)) ∧
      (0 < relayBaseDelay options →
        (posDelays (relayBaseDelay options) (relayMaxAttempts options) 1
          (relayMaxAttempts options - 1)).length = relayMaxAttempts options - 1) := by
  intro α url body headers oracle options hM hret
  refine ⟨?_, fun hb => posDelays_length _ _ hb _ 1 (by omega)⟩
  have h := relayLoop_run oracle (relayMaxAttempts options) (relayBaseDelay options)
    (relayTimeout options) (relayMaxAttempts options) (relayMaxAttempts options)
    1 "" none (by omega) (by omega) (fun i h1 h2 => hret i h1 (by omega))
  have hz : relayMaxAttempts options - relayMaxAttempts options = 0 := by omega
  rw [hz] at h
  have hfirst : ((relayLoop oracle (relayMaxAttempts options)
      (relayBaseDelay options) (relayTimeout options) (relayMaxAttempts options)
      1 "" none).1) =
      ⟨false, some (stepErr (relayTimeout options) (oracle (relayMaxAttempts options))),
        relayMaxAttempts options, lastStatusAmong oracle (relayMaxAttempts options)⟩ := by
    rw [h]
    obtain ⟨m1, hm1⟩ : ∃ m1, relayMaxAttempts options = m1 + 1 :=
      ⟨relayMaxAttempts options - 1, by omega⟩
    rw [hm1, threadErr_last, threadStatus_lastAmong]
    have hadd : 1 + m1 = m1 + 1 := by omega
    rw [hadd]
    rfl
  have htr := relayLoop_trace oracle (relayMaxAttempts options)
    (relayBaseDelay options) (relayTimeout options) (relayMaxAttempts options)
    1 "" none (by omega)
  refine Prod.ext hfirst ?_
  have hatt : ((relayLoop oracle (relayMaxAttempts options)
      (relayBaseDelay options) (relayTimeout options) (relayMaxAttempts options)
      1 "" none).1).attempts = relayMaxAttempts options :=
    congrArg RelayResult.attempts hfirst
  rw [show (sendRelayRequest url body headers oracle options).2 =
    (relayLoop oracle (relayMaxAttempts options) (relayBaseDelay options)
      (relayTimeout options) (relayMaxAttempts options) 1 "" none).2 from rfl]
  rw [htr, hatt]

/-- Witness for C4: three consecutive 500 responses with the default
options exhaust all three attempts with two sleeps (500 ms and 1000 ms). -/
theorem retry_exhaustion_witness :
    sendRelayRequest "u" (0 : Nat) [] (fun _ => .response 500 (some "b")) none =
      (⟨false, some (stepErr (relayTimeout none)
          ((fun _ => AttemptOutcome.response 500 (some "b")) (relayMaxAttempts none))),
        relayMaxAttempts none,
        lastStatusAmong (fun _ => AttemptOutcome.response 500 (some "b"))
          (relayMaxAttempts none)⟩,
       posDelays (relayBaseDelay none) (relayMaxAttempts none) 1
         (relayMaxAttempts none - 1)) ∧
    (posDelays (relayBaseDelay none) (relayMaxAttempts none) 1
      (relayMaxAttempts none - 1)).length = 2 :=
  ⟨((retry_exhaustion Nat "u" 0 [] (fun _ => .response 500 (some "b")) none
      (by decide) (by intro i h1 h2; rfl))).1, by decide⟩

/-- Counterexample for C4 as stated: with `baseDelayMs = 0` and
`maxAttempts = 2`, two retryably-failed attempts produce the claimed
result fields but zero inter-attempt waits, not `N - 1 = 1`. -/
theorem zero_base_delay_no_waits :
    sendRelayRequest "u" (0 : Nat) [] (fun _ => .response 500 (some "b"))
        (some ⟨some 2, some 0, some 1⟩) =
      (⟨false, some "HTTP 500: b", 2, some 500⟩, []) ∧
    ¬ (([] : List ℚ).length = 2 - 1) :=
  ⟨by decide, by decide⟩

/-- C5: a 2xx response on attempt `k` (after `k - 1` retryable failures)
returns `{success := true, attempts := k, statusCode := status}` with no
error recorded, no further attempt and no sleep after that response (the
sleep trace covers only attempts `1..k-1`); in particular a 200 on
attempt 1 yields `attempts = 1` with no sleep at all. -/
theorem success_short_circuit :
    ∀ (α : Type) (url : String) (body : α) (headers : List (String × String))
      (oracle : Nat → AttemptOutcome) (options : Option RelayOptions)
      (k status : Nat) (bodyText : Option String),
      1 ≤ k → k ≤ relayMaxAttempts options →
      (∀ i, 1 ≤ i → i < k →
        isRetryableStep (relayClassify (relayTimeout options) (oracle i)) = true) →
      oracle k = .response status bodyText → responseOk status = true →
      sendRelayRequest url body headers oracle options =
        (⟨true, none, k, some status⟩,
         posDelays (relayBaseDelay options) (relayMaxAttempts options) 1 (k - 1)) := by
  intro α url body headers oracle options k status bodyText hk1 hk2 hret hk ho
  have hrun := sendRelay_run url body headers oracle options k hk1 hk2 hret
  obtain ⟨f, hf⟩ : ∃ f, relayMaxAttempts options - (k - 1) = f + 1 :=
    ⟨relayMaxAttempts options - k, by omega⟩
  rw [hf] at hrun
  have hcl : relayClassify (relayTimeout options) (oracle k) = .succeed status := by
    rw [hk]
    simp [relayClassify, ho]
  have hfirst : ((sendRelayRequest url body headers oracle options).1) =
      ⟨true, none, k, some status⟩ := by
    rw [hrun]
    simp [relayLoop, hcl]
  have htr := relayLoop_trace oracle (relayMaxAttempts options)
    (relayBaseDelay options) (relayTimeout options) (relayMaxAttempts options)
    1 "" none (by omega)
  refine Prod.ext hfirst ?_
  have hatt : ((relayLoop oracle (relayMaxAttempts options)
      (relayBaseDelay options) (relayTimeout options) (relayMaxAttempts options)
      1 "" none).1).attempts = k :=
    congrArg RelayResult.attempts hfirst
  rw [show (sendRelayRequest url body headers oracle options).2 =
    (relayLoop oracle (relayMaxAttempts options) (relayBaseDelay options)
      (relayTimeout options) (relayMaxAttempts options) 1 "" none).2 from rfl]
  rw [htr, hatt]

/-- Witness for C5: a single 200 on attempt 1 yields
`{success := true, attempts := 1}` with an empty sleep trace. -/
theorem success_short_circuit_witness :
    sendRelayRequest "u" (0 : Nat) [] (fun _ => .response 200 none) none =
      (⟨true, none, 1, some 200⟩,
       posDelays (relayBaseDelay none) (relayMaxAttempts none) 1 0) :=
  success_short_circuit Nat "u" 0 [] (fun _ => .response 200 none) none 1 200 none
    (by decide) (by decide) (by intro i h1 h2; omega) rfl (by decide)

/-- C6 (amended): a fired abort (`AbortError`) at attempt `k` records
`Request timeout (<timeoutMs>ms)` as the latest error and is a retryable
transport failure consuming exactly one attempt (another attempt follows
while budget remains); however the abort timer is armed unconditionally
with delay `timeoutMs` for every attempt — `timeoutMs = 0` arms an
immediate 0 ms abort timer rather than disabling the timeout (see the
counterexample against the final clause of the claim). -/
theorem timeout_retry_behavior :
    (∀ (timeoutMs : Nat) (msg : String),
      relayClassify timeoutMs (.abortError msg) =
        .retryable ("Request timeout (" ++ toString timeoutMs ++ "ms)") none) ∧
    (∀ (α : Type) (url : String) (body : α) (headers : List (String × String))
      (oracle : Nat → AttemptOutcome) (options : Option RelayOptions)
      (k : Nat) (msg : String),
      1 ≤ k → k < relayMaxAttempts options →
      (∀ i, 1 ≤ i → i < k →
        isRetryableStep (relayClassify (relayTimeout options) (oracle i)) = true) →
      oracle k = .abortError msg →
      k + 1 ≤ ((sendRelayRequest url body headers oracle options).1).attempts) ∧
    (∀ timeoutMs : Nat, relayAbortTimerDelay timeoutMs = some timeoutMs) := by
  refine ⟨fun _ _ => rfl, ?_, fun _ => rfl⟩
  intro α url body headers oracle options k msg hk1 hkM hret hk
  have hrun := sendRelay_run url body headers oracle options k hk1 (by omega) hret
  obtain ⟨f, hf⟩ : ∃ f, relayMaxAttempts options - (k - 1) = f + 1 :=
    ⟨relayMaxAttempts options - k, by omega⟩
  rw [hf] at hrun
  have hcl : relayClassify (relayTimeout options) (oracle k) =
      .retryable ("Request timeout (" ++ toString (relayTimeout options) ++ "ms)")
        none := by
    rw [hk]
    rfl
  rw [show (sendRelayRequest url body headers oracle options).1 =
    (relayLoop oracle (relayMaxAttempts options) (relayBaseDelay options)
      (relayTimeout options) (f + 1) k
      (threadErr (relayTimeout options) oracle "" 1 (k - 1))
      (threadStatus oracle none 1 (k - 1))).1 from hrun]
  simp only [relayLoop, hcl]
  have hge := relayLoop_attempts_ge oracle (relayMaxAttempts options)
    (relayBaseDelay options) (relayTimeout options) f (k + 1)
    ("Request timeout (" ++ toString (relayTimeout options) ++ "ms)")
    (optOr none (threadStatus oracle none 1 (k - 1)))
    (by omega) (by omega)
  split_ifs with h1
  · exact hge
  · exact hge

/-- Witness for C6: an abort on attempt 1 with budget 2 leads to a second
attempt. -/
theorem timeout_retry_behavior_witness :
    1 + 1 ≤ ((sendRelayRequest "u" (0 : Nat) []
      (fun _ => AttemptOutcome.abortError "aborted")
      (some ⟨some 2, some 0, some 9⟩)).1).attempts :=
  timeout_retry_behavior.2.1 Nat "u" 0 []
    (fun _ => AttemptOutcome.abortError "aborted")
    (some ⟨some 2, some 0, some 9⟩) 1 "aborted"
    (by decide) (by decide) (by intro i h1 h2; omega) rfl

/-- Counterexample for the final clause of C6: with `timeoutMs = 0` the code
still arms the abort timer (with a 0 ms delay), while the spec reading
`0 = no timeout` would arm none. -/
theorem zero_timeout_timer_armed :
    relayAbortTimerDelay 0 = some 0 ∧
    relayAbortTimerDelay 0 ≠ specAbortTimerDelay 0 :=
  ⟨rfl, by decide⟩

/-- The guarded forwarding fold of `relayBaseHeaders` is a plain
`recordSet` fold over the `x-sentinel-` entries. -/
theorem relay_fold_filter (l : List (String × String))
    (init : List (String × String)) :
    l.foldl (fun acc kv =>
      if strStartsWith (lowerStr kv.1) "x-sentinel-" then recordSet acc kv.1 kv.2
      else acc) init =
    (l.filter (fun kv => strStartsWith (lowerStr kv.1) "x-sentinel-")).foldl
      (fun acc kv => recordSet acc kv.1 kv.2) init := by
  exact foldl_guard_filter _ _ l init

/-- Only the `x-sentinel-` entries of the inbound map (in order) influence
`buildRelayHeaders`: maps with equal filtered entry lists build equal
outbound headers. -/
theorem buildRelayHeaders_congr (config : IntegrationConfig)
    (h1 h2 : List (String × String))
    (hfil : h1.filter (fun kv => strStartsWith (lowerStr kv.1) "x-sentinel-") =
      h2.filter (fun kv => strStartsWith (lowerStr kv.1) "x-sentinel-")) :
    buildRelayHeaders h1 config = buildRelayHeaders h2 config := by
  simp only [buildRelayHeaders, relayBaseHeaders]
  rw [relay_fold_filter, relay_fold_filter, hfil]

/-- The pre-secret stages always keep the `Content-Type` entry. -/
theorem hasKey_relayBaseHeaders (config : IntegrationConfig)
    (h : List (String × String)) :
    hasKey (relayBaseHeaders h config) "Content-Type" = true := by
  have h0 : hasKey [("Content-Type", "application/json")] "Content-Type" = true := by
    decide
  have h1 : hasKey (if config.includeOriginalHeaders.getD true then
      h.foldl (fun acc kv =>
        if strStartsWith (lowerStr kv.1) "x-sentinel-" then recordSet acc kv.1 kv.2
        else acc) [("Content-Type", "application/json")]
    else [("Content-Type", "application/json")]) "Content-Type" = true := by
    split_ifs
    · rw [relay_fold_filter]
      exact hasKey_foldl_recordSet "Content-Type" _ _ h0
    · exact h0
  unfold relayBaseHeaders
  cases hch : config.customHeaders with
  | none => simpa using h1
  | some ch =>
    simp only []
    exact hasKey_foldl_recordSet "Content-Type" ch _ h1

/-- C7 (amended): with a truthy webhook secret, a request whose
`x-sentinel-signature` header is absent — or present but empty, which the
JS falsiness check treats the same way — is rejected with
`Missing signature header`; a request with a non-empty signature failing
verification is rejected with `Invalid signature`; in all cases the
response is produced for every `parse`, `router` and remote network alike
(the body is never parsed, no handler runs) and the relay handler performs
no delivery (`false` flag). -/
theorem signature_gate :
    ∀ (verify : String → String → String → Bool) (ctx : HandlerContext)
      (router : WebhookPayload → WebhookResponse)
      (parse : String → WebhookPayload) (network : RelayNetwork)
      (rawBody : String) (headers : List (String × String)),
      isTruthyStr ctx.webhookSecret = true →
      ((lookupHeader headers "x-sentinel-signature" = none ∨
        lookupHeader headers "x-sentinel-signature" = some "") →
        handleWebhookRelay verify ctx parse network rawBody headers =
          (errorResponse "Missing signature header", false) ∧
        handleWebhookRouted verify ctx.webhookSecret router parse rawBody headers =
          errorResponse "Missing signature header") ∧
      (∀ sgn, lookupHeader headers "x-sentinel-signature" = some sgn → sgn ≠ "" →
        verify rawBody sgn (ctx.webhookSecret.getD "") = false →
        handleWebhookRelay verify ctx parse network rawBody headers =
          (errorResponse "Invalid signature", false) ∧
        handleWebhookRouted verify ctx.webhookSecret router parse rawBody headers =
          errorResponse "Invalid signature") := by
  intro verify ctx router parse network rawBody headers hsec
  constructor
  · intro hmiss
    rcases hmiss with hnone | hempty
    · constructor <;> simp [handleWebhookRelay, handleWebhookRouted, hsec, hnone]
    · constructor <;> simp [handleWebhookRelay, handleWebhookRouted, hsec, hempty]
  · intro sgn hsgn hne hv
    constructor <;>
      simp [handleWebhookRelay, handleWebhookRouted, hsec, hsgn, hne, hv]

/-- Witness for C7: concrete context, absent header, failing verifier. -/
theorem signature_gate_witness :
    handleWebhookRelay (fun _ _ _ => false)
        ⟨⟨"http://t", none, none, none, none, none, none, none, none, none⟩,
          some "sec"⟩
        (fun _ => ⟨"e", "ts", "org", none, "d"⟩)
        (fun _ _ _ _ => AttemptOutcome.response 200 none) "body" [] =
      (errorResponse "Missing signature header", false) :=
  ((signature_gate (fun _ _ _ => false)
      ⟨⟨"http://t", none, none, none, none, none, none, none, none, none⟩,
        some "sec"⟩
      (fun _ => successResponse "r") (fun _ => ⟨"e", "ts", "org", none, "d"⟩)
      (fun _ _ _ _ => AttemptOutcome.response 200 none) "body" [] rfl).1
    (Or.inl rfl)).1

/-- Counterexample for C7 as stated: a present-but-empty signature header
with a verifier that rejects it is answered with
`Missing signature header`, not the claimed `Invalid signature`. -/
theorem empty_signature_is_missing :
    lookupHeader [("x-sentinel-signature", "")] "x-sentinel-signature" =
      some "" ∧
    (fun (_ _ _ : String) => false) "body" "" "sec" = false ∧
    (handleWebhookRelay (fun _ _ _ => false)
        ⟨⟨"http://t", none, none, none, none, none, none, none, none, none⟩,
          some "sec"⟩
        (fun _ => ⟨"e", "ts", "org", none, "d"⟩)
        (fun _ _ _ _ => AttemptOutcome.response 200 none) "body"
        [("x-sentinel-signature", "")]).1 =
      errorResponse "Missing signature header" ∧
    errorResponse "Missing signature header" ≠ errorResponse "Invalid signature" :=
  ⟨by decide, rfl, by decide, by decide⟩

/-- C8: once the signature gate is passed or skipped, a falsy
(empty) `targetUrl` makes the relay handler answer
`ok = true, "Target URL not configured, skipping"`, and an event not
matching `eventPatterns` (an absent or empty list matching everything)
makes it answer `ok = true` with the non-match skip message; in both
cases no delivery request is sent. -/
theorem config_absence_skips :
    (∀ ev : String, matchesEventPatterns ev none = true ∧
      matchesEventPatterns ev (some []) = true) ∧
    (∀ (verify : String → String → String → Bool) (ctx : HandlerContext)
      (parse : String → WebhookPayload) (network : RelayNetwork)
      (rawBody : String) (headers : List (String × String)),
      (isTruthyStr ctx.webhookSecret = false ∨
        (∃ sgn, lookupHeader headers "x-sentinel-signature" = some sgn ∧
          sgn ≠ "" ∧ verify rawBody sgn (ctx.webhookSecret.getD "") = true)) →
      (ctx.config.targetUrl = "" →
        handleWebhookRelay verify ctx parse network rawBody headers =
          (successResponse "Target URL not configured, skipping", false)) ∧
      (ctx.config.targetUrl ≠ "" →
        matchesEventPatterns (parse rawBody).event ctx.config.eventPatterns = false →
        handleWebhookRelay verify ctx parse network rawBody headers =
          (successResponse ("Event " ++ sq ++ (parse rawBody).event ++ sq ++
            " does not match patterns, skipping"), false))) := by
  constructor
  · intro ev
    exact ⟨rfl, rfl⟩
  · intro verify ctx parse network rawBody headers hgate
    have hbody : handleWebhookRelay verify ctx parse network rawBody headers =
        handleRelayEvent ctx parse network rawBody headers := by
      rcases hgate with hfalse | ⟨sgn, hsgn, hne, hv⟩
      · simp [handleWebhookRelay, hfalse]
      · by_cases hsec : isTruthyStr ctx.webhookSecret = true
        · simp [handleWebhookRelay, hsec, hsgn, hne, hv]
        · simp only [Bool.not_eq_true] at hsec
          simp [handleWebhookRelay, hsec]
    constructor
    · intro hurl
      rw [hbody]
      simp [handleRelayEvent, hurl]
    · intro hurl hmatch
      rw [hbody]
      have hbeq : (ctx.config.targetUrl == "") = false := by
        simpa using hurl
      simp [handleRelayEvent, hbeq, hmatch]

/-- Witness for C8: no secret configured and an empty target URL yield the
configured-skip response with no delivery. -/
theorem config_absence_skips_witness :
    handleWebhookRelay (fun _ _ _ => false)
        ⟨⟨"", none, none, none, none, none, none, none, none, none⟩, none⟩
        (fun _ => ⟨"e", "ts", "org", none, "d"⟩)
        (fun _ _ _ _ => AttemptOutcome.response 200 none) "body" [] =
      (successResponse "Target URL not configured, skipping", false) :=
  ((config_absence_skips.2 (fun _ _ _ => false)
      ⟨⟨"", none, none, none, none, none, none, none, none, none⟩, none⟩
      (fun _ => ⟨"e", "ts", "org", none, "d"⟩)
      (fun _ _ _ _ => AttemptOutcome.response 200 none) "body" []
      (Or.inl rfl)).1) rfl

/-- Counterexample for C9 as stated: with no webhook secret configured,
the relay handler (part_001) forwards the `x-sentinel-signature` header
outbound — its lowercased name starts with `x-sentinel-` and
`includeOriginalHeaders` defaults to true in `buildRelayHeaders` — so a
remote target whose answer depends on that forwarded header makes two
invocations that differ only in the signature header produce different
`WebhookResponse`s. -/
theorem relay_forwards_signature_header :
    lookupHeader [("x-sentinel-signature", "a")] "x-sentinel-signature" =
      some "a" ∧
    lookupHeader [("x-sentinel-signature", "b")] "x-sentinel-signature" =
      some "b" ∧
    (handleWebhookRelay (fun _ _ _ => false)
        ⟨⟨"t", none, none, none, none, none, none, none, none, none⟩, none⟩
        (fun _ => ⟨"e", "ts", "org", none, "d"⟩)
        (fun _ _ hdrs _ =>
          if lookupHeader hdrs "x-sentinel-signature" == some "a" then
            AttemptOutcome.response 200 none
          else AttemptOutcome.response 404 none)
        "body" [("x-sentinel-signature", "a")]).1 =
      successResponse "Relayed to (200)" ∧
    (handleWebhookRelay (fun _ _ _ => false)
        ⟨⟨"t", none, none, none, none, none, none, none, none, none⟩, none⟩
        (fun _ => ⟨"e", "ts", "org", none, "d"⟩)
        (fun _ _ hdrs _ =>
          if lookupHeader hdrs "x-sentinel-signature" == some "a" then
            AttemptOutcome.response 200 none
          else AttemptOutcome.response 404 none)
        "body" [("x-sentinel-signature", "b")]).1 =
      errorResponse "Relay failed after 1 attempt: HTTP 404: Unknown error" ∧
    successResponse "Relayed to (200)" ≠
      errorResponse "Relay failed after 1 attempt: HTTP 404: Unknown error" :=
  ⟨by decide, by decide, by decide, by decide, by decide⟩

/-- C9 (amended): with an undefined or empty webhook secret no signature
verification occurs — the response never depends on the verifier — and
for the router-based handlers (part_000/part_002 shape) two invocations
whose header maps differ only in `x-sentinel-signature` produce the same
`WebhookResponse`.  For the relay handler the claim as stated fails — the
signature header is itself forwarded outbound, so the remote, and hence
the response, may observe it (see the counterexample) — and what holds
instead is: the response is the same for any two maps that agree on their
`x-sentinel-` entries, the only channel left. -/
theorem no_secret_no_verification :
    ∀ (verify1 verify2 : String → String → String → Bool)
      (ctx : HandlerContext) (router : WebhookPayload → WebhookResponse)
      (parse : String → WebhookPayload) (network : RelayNetwork)
      (rawBody : String) (h1 h2 : List (String × String)),
      isTruthyStr ctx.webhookSecret = false →
      ((∀ k, k ≠ "x-sentinel-signature" →
          lookupHeader h1 k = lookupHeader h2 k) →
        handleWebhookRouted verify1 ctx.webhookSecret router parse rawBody h1 =
          handleWebhookRouted verify2 ctx.webhookSecret router parse rawBody h2) ∧
      (h1.filter (fun kv => strStartsWith (lowerStr kv.1) "x-sentinel-") =
          h2.filter (fun kv => strStartsWith (lowerStr kv.1) "x-sentinel-") →
        (handleWebhookRelay verify1 ctx parse network rawBody h1).1 =
          (handleWebhookRelay verify2 ctx parse network rawBody h2).1) := by
  intro verify1 verify2 ctx router parse network rawBody h1 h2 hsec
  constructor
  · intro _
    simp [handleWebhookRouted, hsec]
  · intro hfil
    rw [show handleWebhookRelay verify1 ctx parse network rawBody h1 =
        handleRelayEvent ctx parse network rawBody h1 from by
      simp [handleWebhookRelay, hsec]]
    rw [show handleWebhookRelay verify2 ctx parse network rawBody h2 =
        handleRelayEvent ctx parse network rawBody h2 from by
      simp [handleWebhookRelay, hsec]]
    simp only [handleRelayEvent]
    rw [buildRelayHeaders_congr ctx.config h1 h2 hfil]

/-- Witness for C9: an empty-string secret, two different verifiers, and
two header maps with the same `x-sentinel-` entries. -/
theorem no_secret_no_verification_witness :
    (handleWebhookRelay (fun _ _ _ => false)
        ⟨⟨"http://t", none, none, none, none, none, none, none, none, none⟩,
          some ""⟩
        (fun _ => ⟨"e", "ts", "org", none, "d"⟩)
        (fun _ _ _ _ => AttemptOutcome.response 200 none) "body"
        [("x-sentinel-signature", "s"), ("b", "2")]).1 =
      (handleWebhookRelay (fun _ _ _ => true)
        ⟨⟨"http://t", none, none, none, none, none, none, none, none, none⟩,
          some ""⟩
        (fun _ => ⟨"e", "ts", "org", none, "d"⟩)
        (fun _ _ _ _ => AttemptOutcome.response 200 none) "body"
        [("x-sentinel-signature", "s")]).1 :=
  (no_secret_no_verification (fun _ _ _ => false) (fun _ _ _ => true)
    ⟨⟨"http://t", none, none, none, none, none, none, none, none, none⟩,
      some ""⟩
    (fun _ => successResponse "r") (fun _ => ⟨"e", "ts", "org", none, "d"⟩)
    (fun _ _ _ _ => AttemptOutcome.response 200 none) "body"
    [("x-sentinel-signature", "s"), ("b", "2")] [("x-sentinel-signature", "s")]
    (by decide)).2 (by decide)

/-- C10: `buildRelayHeaders` forwards an inbound header only when its
lowercased name starts with `x-sentinel-` — two inbound maps with the
same `x-sentinel-` entries produce identical outputs for every config —
the output always contains a `Content-Type` entry, and the secret header
is set exactly when both `secretHeader` and `secretValue` are truthy
(present and non-empty). -/
theorem header_forwarding :
    (∀ (config : IntegrationConfig) (h1 h2 : List (String × String)),
      h1.filter (fun kv => strStartsWith (lowerStr kv.1) "x-sentinel-") =
        h2.filter (fun kv => strStartsWith (lowerStr kv.1) "x-sentinel-") →
      buildRelayHeaders h1 config = buildRelayHeaders h2 config) ∧
    (∀ (config : IntegrationConfig) (h : List (String × String)),
      hasKey (buildRelayHeaders h config) "Content-Type" = true) ∧
    (∀ (config : IntegrationConfig) (h : List (String × String)),
      (isTruthyStr config.secretHeader && isTruthyStr config.secretValue) = true →
      lookupHeader (buildRelayHeaders h config) (config.secretHeader.getD "") =
        some (config.secretValue.getD "")) ∧
    (∀ (config : IntegrationConfig) (h : List (String × String)),
      (isTruthyStr config.secretHeader && isTruthyStr config.secretValue) = false →
      buildRelayHeaders h config = relayBaseHeaders h config) := by
  refine ⟨?_, ?_, ?_, ?_⟩
  · intro config h1 h2 hfil
    exact buildRelayHeaders_congr config h1 h2 hfil
  · intro config h
    unfold buildRelayHeaders
    split_ifs with hsec
    · exact hasKey_recordSet _ _ _ _ (hasKey_relayBaseHeaders config h)
    · exact hasKey_relayBaseHeaders config h
  · intro config h hsec
    unfold buildRelayHeaders
    rw [if_pos hsec]
    exact lookup_recordSet _ _ _
  · intro config h hsec
    unfold buildRelayHeaders
    rw [if_neg (by simp [hsec])]

/-- Witness for C10: two maps sharing only their `x-sentinel-` entry
produce the same output headers. -/
theorem header_forwarding_witness :
    buildRelayHeaders [("a", "1"), ("X-Sentinel-Event", "e")]
        ⟨"u", none, none, none, none, none, none, none, none, none⟩ =
      buildRelayHeaders [("X-Sentinel-Event", "e"), ("b", "2")]
        ⟨"u", none, none, none, none, none, none, none, none, none⟩ :=
  header_forwarding.1 ⟨"u", none, none, none, none, none, none, none, none, none⟩
    [("a", "1"), ("X-Sentinel-Event", "e")] [("X-Sentinel-Event", "e"), ("b", "2")]
    (by decide)

end Sentinel
